import Mathlib

/-!
Shallow embedding of the `hass-pollenpulsen` integration's data-refresh and
caching pipeline (src/api.py and src/sensor.py), with theorems checking the
natural-language specification against it.

Python dictionaries are modelled as association lists with unique keys and
Python's insertion-order semantics: setting an existing key updates its value
in place, setting a fresh key appends at the end, and lookup finds the unique
binding.  JSON values that may be absent are modelled with `Option`; a falsy
decoded body (null or empty object) is `none`.  Machine `async` calls are
modelled by passing the outcome of each network interaction as an explicit
argument; exceptions become `Except` results.
-/

namespace PollenPulsen

/-- Lookup in a Python-dict model: the value of the unique binding for `k`. -/
def dictGet {κ α : Type} [DecidableEq κ] : List (κ × α) → κ → Option α
  | [], _ => none
  | p :: rest, k => if p.1 = k then some p.2 else dictGet rest k

/-- `d[k] = v` on a Python dict: update the existing binding in place, else
append a new binding at the end (Python 3.7+ insertion-order semantics). -/
def dictSet {κ α : Type} [DecidableEq κ] : List (κ × α) → κ → α → List (κ × α)
  | [], k, v => [(k, v)]
  | p :: rest, k, v => if p.1 = k then (k, v) :: rest else p :: dictSet rest k v

/-- A dict comprehension `{p.1: p.2 for p in l}`: left-to-right insertion,
later duplicates overwrite earlier values. -/
def buildDict {κ α : Type} [DecidableEq κ] (l : List (κ × α)) : List (κ × α) :=
  l.foldl (fun d p => dictSet d p.1 p.2) []

/-- `startsWithChars hay needle`: `needle` is an initial segment of `hay`. -/
def startsWithChars : List Char → List Char → Bool
  | _, [] => true
  | [], _ :: _ => false
  | a :: as, b :: bs => a = b && startsWithChars as bs

/-- Substring containment on character lists (Python's `needle in hay`). -/
def containsChars : List Char → List Char → Bool
  | [], needle => needle.isEmpty
  | c :: t, needle => startsWithChars (c :: t) needle || containsChars t needle

/-- Python's `needle in hay` on strings. -/
def strContains (hay needle : String) : Bool :=
  containsChars hay.data needle.data

/-! ## api.py: data shapes -/

/-- One entry of a forecast item's `levelSeries` list.  Each JSON key may be
absent (`.get` in the source); `level` is an integer when present. -/
structure LevelEntry where
  time : Option String
  pollenId : Option String
  level : Option Int
deriving DecidableEq, Repr

/-- One element of the forecast response's `items` list (api.py line 90-96):
only the keys the source reads are modelled. -/
structure ForecastItem where
  startDate : Option String
  endDate : Option String
  text : Option String
  levelSeries : Option (List LevelEntry)
deriving DecidableEq, Repr

/-- The decoded forecast response body: a JSON object whose `items` key may be
missing.  A falsy body (null / empty object) is represented as `none` at the
use site. -/
structure ForecastBody where
  items : Option (List ForecastItem)
deriving DecidableEq, Repr

/-- The result dictionary built by `get_forecasts` (api.py lines 91-96, 109). -/
structure ForecastResult where
  start_date : Option String
  end_date : Option String
  text : String
  pollen_levels : List (String × Int)
deriving DecidableEq, Repr

/-- The error taxonomy of `PollenPulsenApiClientError` and the re-raised
transport exceptions, one constructor per raise site in api.py. -/
inductive ApiError where
  /-- api.py 73-76 / 211-214: HTTP status ≥ 400, message carries the body. -/
  | httpError (status : Nat) (body : String)
  /-- api.py 83: falsy decoded forecast body. -/
  | emptyResponse
  /-- api.py 87: `items` key missing or the items list empty. -/
  | noItems
  /-- api.py 221: falsy body or missing `items` key on pollen types. -/
  | invalidPollenTypes
  /-- api.py 229: zero pollen types parsed from a 200 response. -/
  | noPollenTypes
  /-- api.py 170: timeout while fetching regions, wrapped. -/
  | timeoutRegions
  /-- api.py 173: KeyError / TypeError while parsing the regions response. -/
  | parseRegions
  /-- api.py 176: connection-level failure while fetching regions, wrapped. -/
  | transportRegions
  /-- re-raised `asyncio.TimeoutError` (api.py 117-119, 238-240). -/
  | timeoutRaised
  /-- re-raised `aiohttp.ClientError` (api.py 114-116, 235-237). -/
  | transportRaised
deriving DecidableEq, Repr

/-! ## api.py: get_forecasts (lines 45-124) -/

/-- api.py line 105: `today in level_data.get("time", "")`. -/
def matchesToday (today : String) (e : LevelEntry) : Bool :=
  strContains (e.time.getD "") today

/-- api.py lines 105-108 combined: the pair an entry contributes, or `none`
when any of the three guards fails (`today in time`, truthy `pollenId`,
`level is not None`). -/
def keptPair (today : String) (e : LevelEntry) : Option (String × Int) :=
  if matchesToday today e then
    match e.pollenId, e.level with
    | some pid, some lvl => if pid = "" then none else some (pid, lvl)
    | _, _ => none
  else none

/-- api.py lines 103-109: the today-filter pass over `levelSeries`, building
`result["pollen_levels"]` by successive dict assignment. -/
def processLevelSeries (today : String) (series : List LevelEntry) :
    List (String × Int) :=
  series.foldl
    (fun d e =>
      match keptPair today e with
      | some (pid, lvl) => dictSet d pid lvl
      | none => d)
    []

/-- api.py lines 66-112: `get_forecasts` after the HTTP exchange completed
with `status` and decoded body `body` (`none` = falsy body; the timeout and
connection-error paths re-raise and are modelled at the call sites). -/
def get_forecasts (today : String) (status : Nat) (errorText : String)
    (body : Option ForecastBody) : Except ApiError ForecastResult :=
  if 400 ≤ status then .error (.httpError status errorText)
  else
    match body with
    | none => .error .emptyResponse
    | some b =>
      match b.items with
      | none => .error .noItems
      | some [] => .error .noItems
      | some (forecast :: _) =>
        .ok { start_date := forecast.startDate
              end_date := forecast.endDate
              text := forecast.text.getD ""
              pollen_levels :=
                processLevelSeries today (forecast.levelSeries.getD []) }

/-! ## api.py: get_regions (lines 126-179) -/

/-- One element of the regions response's `items` list; `id` / `name` may be
missing (direct indexing in the source raises `KeyError` then). -/
structure RegionItem where
  id : Option String
  name : Option String
deriving DecidableEq, Repr

/-- The decoded regions response body; `items` key may be missing. -/
structure RegionsBody where
  items : Option (List RegionItem)
deriving DecidableEq, Repr

/-- Outcome of the HTTP exchange for the regions resource: a timeout, a
connection-level failure, or a completed response with a status and a decoded
body (`none` = JSON null, on which `"items" not in data` raises TypeError). -/
inductive RegionsNet where
  | timedOut
  | connFailed
  | http (status : Nat) (body : Option RegionsBody)
deriving DecidableEq, Repr

/-- api.py line 157: the dict comprehension `{region["id"]: region["name"]}`;
`none` when some item lacks `id` or `name` (KeyError in the source). -/
def buildRegions (items : List RegionItem) :
    Option (List (String × String)) := do
  let pairs ← items.mapM (fun r => do
    let i ← r.id
    let n ← r.name
    pure (i, n))
  pure (buildDict pairs)

/-- api.py lines 126-179: `get_regions` over the cache state and the network
outcome; returns the new cache and the result (raised errors as `.error`). -/
def get_regions (cache : List (String × String)) (net : RegionsNet) :
    List (String × String) × Except ApiError (List (String × String)) :=
  if cache ≠ [] then (cache, .ok cache)
  else
    match net with
    | .timedOut => (cache, .error .timeoutRegions)
    | .connFailed => (cache, .error .transportRegions)
    | .http status body =>
      if status ≠ 200 then (cache, .ok [])
      else
        match body with
        | none => (cache, .error .parseRegions)
        | some b =>
          match b.items with
          | none => (cache, .ok [])
          | some items =>
            match buildRegions items with
            | none => (cache, .error .parseRegions)
            | some regions =>
              if regions = [] then (cache, .ok [])
              else (regions, .ok regions)

/-! ## api.py: get_pollen_types (lines 181-245) -/

/-- One element of the pollen-types response's `items` list.  The source
indexes `item["id"]` and `item["name"]` directly; only well-keyed items are
modelled, since the claims do not exercise that KeyError path. -/
structure PollenTypeItem where
  id : String
  name : String
deriving DecidableEq, Repr

/-- The decoded pollen-types response body; `items` key may be missing. -/
structure PollenTypesBody where
  items : Option (List PollenTypeItem)
deriving DecidableEq, Repr

/-- One physical HTTP exchange offered to `get_pollen_types`: the status, the
error text read on status ≥ 400, and the decoded body (`none` = falsy body). -/
structure PollenTypesCall where
  status : Nat
  errorText : String
  body : Option PollenTypesBody
deriving DecidableEq, Repr

/-- api.py lines 192-245: `get_pollen_types` over the cache state and the
network outcome.  Returns (new cache, result, whether the network was hit):
a non-empty cache is returned immediately without touching the network. -/
def get_pollen_types (cache : List (String × String)) (call : PollenTypesCall) :
    List (String × String) × Except ApiError (List (String × String)) × Bool :=
  if cache ≠ [] then (cache, .ok cache, false)
  else if 400 ≤ call.status then
    (cache, .error (.httpError call.status call.errorText), true)
  else
    match call.body with
    | none => (cache, .error .invalidPollenTypes, true)
    | some b =>
      match b.items with
      | none => (cache, .error .invalidPollenTypes, true)
      | some items =>
        let pollen_types := buildDict (items.map (fun i => (i.id, i.name)))
        if pollen_types = [] then (cache, .error .noPollenTypes, true)
        else (pollen_types, .ok pollen_types, true)

/-- A sequence of `get_pollen_types` calls threading the cache state; yields
each call's result and network-hit flag. -/
def runPollenTypeCalls (cache : List (String × String)) :
    List PollenTypesCall →
    List (Except ApiError (List (String × String)) × Bool)
  | [] => []
  | c :: rest =>
    let out := get_pollen_types cache c
    (out.2.1, out.2.2) :: runPollenTypeCalls out.1 rest

/-! ## sensor.py: PollenDataCoordinator (lines 90-167) -/

/-- The combined data dictionary published by a successful refresh
(sensor.py lines 144-150): the forecast result plus the coordinator's level
definitions and pollen types merged in. -/
structure SnapshotData where
  forecast : ForecastResult
  level_definitions : List (Int × String)
  pollen_types : List (String × String)
deriving DecidableEq, Repr

/-- The coordinator's mutable state: `_last_successful_data` (empty dict ↦
`none`), `_level_definitions`, and `_pollen_types` (`none` while the
attribute has never been set — the `hasattr` check on line 136). -/
structure CoordState where
  lastSuccessfulData : Option SnapshotData
  levelDefinitions : List (Int × String)
  pollenTypes : Option (List (String × String))
deriving DecidableEq, Repr

/-- The outcomes of the network interactions one `_async_update_data` cycle
may perform: the level-definitions fetch (`some m` iff it returned status 200
with an `items` key parsed to `m`; any failure or exception is `none` and
leaves the state untouched, lines 114-133), the `get_pollen_types` call
result (line 138), and the `get_forecasts` call result (line 144). -/
structure RefreshInput where
  ldResult : Option (List (Int × String))
  ptResult : Except ApiError (List (String × String))
  forecastResult : Except ApiError ForecastResult
deriving Repr

/-- `UpdateFailed` raised to the coordinator's caller (lines 159, 167). -/
inductive CoordError where
  | updateFailed (msg : String)
deriving DecidableEq, Repr

/-- sensor.py lines 111-167: one `_async_update_data` cycle.  Steps 1-2 only
fill the level-definition / pollen-type caches when empty resp. unset and
swallow their own failures; the forecast fetch drives the outcome: on
success the merged data is stored and returned (the result dict is never
falsy, so `if data:` always stores), on failure the last successful data is
returned when present, else `UpdateFailed` is raised. -/
def coordinatorUpdate (st : CoordState) (inp : RefreshInput) :
    CoordState × Except CoordError SnapshotData :=
  let ld :=
    if st.levelDefinitions = [] then
      match inp.ldResult with
      | some m => m
      | none => st.levelDefinitions
    else st.levelDefinitions
  let pt :=
    match st.pollenTypes with
    | some p => p
    | none =>
      match inp.ptResult with
      | .ok m => m
      | .error _ => []
  match inp.forecastResult with
  | .ok f =>
    let snap : SnapshotData :=
      { forecast := f, level_definitions := ld, pollen_types := pt }
    ({ lastSuccessfulData := some snap, levelDefinitions := ld,
       pollenTypes := some pt }, .ok snap)
  | .error _ =>
    match st.lastSuccessfulData with
    | some prev =>
      ({ st with levelDefinitions := ld, pollenTypes := some pt }, .ok prev)
    | none =>
      ({ st with levelDefinitions := ld, pollenTypes := some pt },
       .error (.updateFailed "API error"))

/-! ## sensor.py: sensor entities (lines 169-312) -/

/-- The coordinator attributes a sensor reads: `last_update_success` and
`data` maintained by the host framework, and `_last_successful_data`
(empty dict ↦ `none`). -/
structure CoordView where
  lastUpdateSuccess : Bool
  data : Option SnapshotData
  lastSuccessfulData : Option SnapshotData
deriving DecidableEq, Repr

/-- sensor.py lines 251-257 (and identically 194-200): `available` returns
`last_update_success or bool(_last_successful_data)`. -/
def forecastSensorAvailable (cv : CoordView) : Bool :=
  cv.lastUpdateSuccess || cv.lastSuccessfulData.isSome

/-- Modelled from the spec (§4.3), not from the source: the three-valued
availability the spec ascribes to ForecastView — `"unavailable"` with no
snapshot, `"active"` with non-empty `levels`, `"no_data"` otherwise.  Used
only to compare the spec's words with the code's boolean `available`. -/
def specForecastAvailability (snapshot : Option SnapshotData) : String :=
  match snapshot with
  | none => "unavailable"
  | some s => if s.forecast.pollen_levels ≠ [] then "active" else "no_data"

/-- sensor.py lines 202-207: `PollenSensor.native_value` — `None` when the
coordinator has no data, else `data["pollen_levels"].get(pollen_id)` (the
`"pollen_levels" not in data` guard never fires: the key is always set). -/
def pollenSensorNativeValue (data : Option SnapshotData) (pollenId : String) :
    Option Int :=
  match data with
  | none => none
  | some s => dictGet s.forecast.pollen_levels pollenId

/-- sensor.py lines 299-310: the per-type entries the forecast sensor adds to
its attributes — one `(type_name, level, description)` triple per binding of
`pollen_levels`, in the dict's iteration order (`level is not None` always
holds for stored levels). -/
def forecastTypeEntries (s : SnapshotData) : List (String × Int × String) :=
  s.forecast.pollen_levels.map (fun p =>
    ((dictGet s.pollen_types p.1).getD p.1, p.2,
     (dictGet s.level_definitions p.2).getD ("Okänd nivå: " ++ toString p.2)))

/-! ## Spec-side characterizations -/

/-- The level the spec ascribes to a pollen-type id after the today-filter
pass: the level of the LAST entry in the sequence that passes all the keep
guards and carries this id (`none` when no such entry exists). -/
def lastKeptLevel (today : String) (series : List LevelEntry) (id : String) :
    Option Int :=
  series.foldl
    (fun acc e =>
      match keptPair today e with
      | some (pid, lvl) => if pid = id then some lvl else acc
      | none => acc)
    none

/-! ## Helper lemmas -/

theorem dictGet_dictSet {κ α : Type} [DecidableEq κ]
    (d : List (κ × α)) (k k' : κ) (v : α) :
    dictGet (dictSet d k v) k' = if k' = k then some v else dictGet d k' := by
  induction d with
  | nil =>
    by_cases h : k' = k
    · subst h; simp [dictSet, dictGet]
    · simp [dictSet, dictGet, h, Ne.symm h]
  | cons p rest ih =>
    by_cases hp : p.1 = k
    · by_cases h : k' = k
      · subst h; simp [dictSet, dictGet, hp]
      · simp [dictSet, dictGet, hp, h, Ne.symm h]
    · by_cases h : k' = k
      · subst h
        simp [dictSet, dictGet, hp, ih]
      · simp [dictSet, dictGet, hp, h, ih]

theorem dictGet_processStep (today : String) (series : List LevelEntry)
    (d : List (String × Int)) (id : String) :
    dictGet
      (series.foldl
        (fun d e =>
          match keptPair today e with
          | some (pid, lvl) => dictSet d pid lvl
          | none => d) d) id
    = series.foldl
        (fun acc e =>
          match keptPair today e with
          | some (pid, lvl) => if pid = id then some lvl else acc
          | none => acc)
        (dictGet d id) := by
  induction series generalizing d with
  | nil => rfl
  | cons e rest ih =>
    simp only [List.foldl_cons]
    rw [ih]
    congr 1
    cases hk : keptPair today e with
    | none => simp
    | some p =>
      obtain ⟨pid, lvl⟩ := p
      simp only [dictGet_dictSet]
      by_cases h : pid = id
      · subst h; simp
      · simp [h, Ne.symm h]

theorem foldl_filter_matchesToday (today : String) (series : List LevelEntry)
    (d : List (String × Int)) :
    (series.filter (matchesToday today)).foldl
        (fun d e =>
          match keptPair today e with
          | some (pid, lvl) => dictSet d pid lvl
          | none => d) d
    = series.foldl
        (fun d e =>
          match keptPair today e with
          | some (pid, lvl) => dictSet d pid lvl
          | none => d) d := by
  induction series generalizing d with
  | nil => rfl
  | cons e rest ih =>
    by_cases hm : matchesToday today e
    · simp [List.filter_cons, hm, ih]
    · have hk : keptPair today e = none := by
        simp [keptPair, hm]
      simp [List.filter_cons, hm, hk, ih]

/-! ## Claim theorems -/

/-- C3: the today-filter of `get_forecasts` keeps exactly the entries whose
`time` field contains today's date — filtering the series down to those
entries leaves the result unchanged, so entries for other dates contribute
nothing — and for every pollen-type id the resulting level is the one of the
last kept entry carrying that id (later entries overwrite earlier ones). -/
theorem today_filter_keeps_today_last_entry_wins
    (today : String) (series : List LevelEntry) :
    processLevelSeries today series
      = processLevelSeries today (series.filter (matchesToday today))
    ∧ ∀ id, dictGet (processLevelSeries today series) id
        = lastKeptLevel today series id := by
  constructor
  · unfold processLevelSeries
    exact (foldl_filter_matchesToday today series []).symm
  · intro id
    unfold processLevelSeries lastKeptLevel
    exact dictGet_processStep today series [] id

/-- C10: the today-filter drops an entry whose `pollenId` is missing or falsy
or whose `level` is missing, wherever it occurs and even when its time
matches today; while an entry with a non-empty `pollenId` and a present
level (in particular level 0) placed after any prefix is kept and sets its
id's level. -/
theorem today_filter_drops_invalid_entries
    (today : String) (pre post : List LevelEntry) (e : LevelEntry) :
    (e.pollenId = none ∨ e.pollenId = some "" ∨ e.level = none →
      processLevelSeries today (pre ++ e :: post)
        = processLevelSeries today (pre ++ post))
    ∧ (∀ pid lvl, e.pollenId = some pid → pid ≠ "" → e.level = some lvl →
        matchesToday today e = true →
        dictGet (processLevelSeries today (pre ++ [e])) pid = some lvl) := by
  constructor
  · intro hinv
    have hk : keptPair today e = none := by
      unfold keptPair
      cases hm : matchesToday today e
      · simp
      · rcases hinv with h | h | h <;> rw [h] <;>
          cases hl : e.level <;> cases hp : e.pollenId <;> simp
    unfold processLevelSeries
    rw [List.foldl_append, List.foldl_append, List.foldl_cons, hk]
  · intro pid lvl hpid hne hlvl hm
    have hk : keptPair today e = some (pid, lvl) := by
      simp [keptPair, hm, hpid, hlvl, hne]
    unfold processLevelSeries
    rw [List.foldl_append, List.foldl_cons, hk, List.foldl_nil,
      dictGet_dictSet, if_pos rfl]

/-- C10 witness: an entry with empty `pollenId` and one with missing level
are dropped although their time matches today; an entry with level 0 and
non-empty `pollenId` is kept. -/
theorem today_filter_drops_invalid_entries_witness :
    ((⟨some "2025-04-01T00:00", some "", some 3⟩ : LevelEntry).pollenId
        = none
      ∨ (⟨some "2025-04-01T00:00", some "", some 3⟩ : LevelEntry).pollenId
        = some ""
      ∨ (⟨some "2025-04-01T00:00", some "", some 3⟩ : LevelEntry).level
        = none →
      processLevelSeries "2025-04-01"
          ([] ++ (⟨some "2025-04-01T00:00", some "", some 3⟩ : LevelEntry)
            :: [⟨some "2025-04-01T00:00", some "1", some 2⟩])
        = processLevelSeries "2025-04-01"
          ([] ++ [⟨some "2025-04-01T00:00", some "1", some 2⟩]))
    ∧ dictGet
        (processLevelSeries "2025-04-01"
          ([] ++ [(⟨some "2025-04-01T06:00", some "5", some 0⟩ : LevelEntry)]))
        "5" = some 0 :=
  ⟨(today_filter_drops_invalid_entries "2025-04-01" []
      [⟨some "2025-04-01T00:00", some "1", some 2⟩]
      ⟨some "2025-04-01T00:00", some "", some 3⟩).1,
   (today_filter_drops_invalid_entries "2025-04-01" [] []
      ⟨some "2025-04-01T06:00", some "5", some 0⟩).2
      "5" 0 rfl (by decide) rfl (by decide)⟩

/-- C4: for a completed forecast exchange below status 400, `get_forecasts`
raises `emptyResponse` on a falsy body and `noItems` when the `items` key is
missing or the list empty; on a non-empty `items` list the result is built
exclusively from `items[0]` — it is invariant under replacing every later
item, and equals the structure read off the head item. -/
theorem get_forecasts_uses_only_first_item
    (today : String) (status : Nat) (errorText : String)
    (h : status < 400) :
    (get_forecasts today status errorText none = .error .emptyResponse)
    ∧ (∀ b : ForecastBody, b.items = none ∨ b.items = some [] →
        get_forecasts today status errorText (some b) = .error .noItems)
    ∧ (∀ (item : ForecastItem) (rest rest' : List ForecastItem),
        get_forecasts today status errorText (some ⟨some (item :: rest)⟩)
          = get_forecasts today status errorText (some ⟨some (item :: rest')⟩)
        ∧ get_forecasts today status errorText (some ⟨some (item :: rest)⟩)
          = .ok { start_date := item.startDate
                  end_date := item.endDate
                  text := item.text.getD ""
                  pollen_levels :=
                    processLevelSeries today (item.levelSeries.getD []) }) := by
  have hs : ¬ 400 ≤ status := Nat.not_le.mpr h
  refine ⟨by simp [get_forecasts, hs], ?_, ?_⟩
  · rintro b (hb | hb) <;> simp [get_forecasts, hs, hb]
  · intro item rest rest'
    exact ⟨by simp [get_forecasts, hs], by simp [get_forecasts, hs]⟩

/-- C4 witness: at status 200, the empty-body error and the first-item
result on a concrete two-item body, where replacing the second item does not
change the result. -/
theorem get_forecasts_uses_only_first_item_witness :
    (get_forecasts "2025-04-01" 200 "" none = .error .emptyResponse)
    ∧ (get_forecasts "2025-04-01" 200 ""
        (some ⟨some [⟨some "2025-04-01", some "2025-04-07", some "fine", none⟩,
                     ⟨some "1999-01-01", none, none, none⟩]⟩)
      = get_forecasts "2025-04-01" 200 ""
        (some ⟨some [⟨some "2025-04-01", some "2025-04-07", some "fine", none⟩]⟩)) :=
  ⟨(get_forecasts_uses_only_first_item "2025-04-01" 200 "" (by decide)).1,
   ((get_forecasts_uses_only_first_item "2025-04-01" 200 "" (by decide)).2.2
      ⟨some "2025-04-01", some "2025-04-07", some "fine", none⟩
      [⟨some "1999-01-01", none, none, none⟩] []).1⟩

/-- C5: `get_pollen_types` with an empty cache always hits the network; a
falsy body, a missing `items` key, or a mapping that comes out empty (a 200
response with zero items) raises and leaves the cache empty, so the next
call hits the network again; a call whose parsed mapping is non-empty caches
it and returns it, and from then on every subsequent call returns the cached
mapping with no network access. -/
theorem pollen_types_error_and_cache_policy :
    (∀ call : PollenTypesCall, (get_pollen_types [] call).2.2 = true)
    ∧ (∀ call : PollenTypesCall, call.status < 400 →
        (call.body = none ∨ call.body = some ⟨none⟩) →
        (get_pollen_types [] call).1 = []
        ∧ (get_pollen_types [] call).2.1 = .error .invalidPollenTypes)
    ∧ (∀ (call : PollenTypesCall) (items : List PollenTypeItem),
        call.status < 400 → call.body = some ⟨some items⟩ →
        buildDict (items.map (fun i => (i.id, i.name))) = [] →
        (get_pollen_types [] call).1 = []
        ∧ (get_pollen_types [] call).2.1 = .error .noPollenTypes)
    ∧ (∀ (call : PollenTypesCall) (items : List PollenTypeItem),
        call.status < 400 → call.body = some ⟨some items⟩ →
        buildDict (items.map (fun i => (i.id, i.name))) ≠ [] →
        (get_pollen_types [] call).1
          = buildDict (items.map (fun i => (i.id, i.name)))
        ∧ (get_pollen_types [] call).2.1
          = .ok (buildDict (items.map (fun i => (i.id, i.name)))))
    ∧ (∀ (m : List (String × String)) (calls : List PollenTypesCall),
        m ≠ [] →
        runPollenTypeCalls m calls = calls.map (fun _ => (.ok m, false))) := by
  refine ⟨?_, ?_, ?_, ?_, ?_⟩
  · intro call
    by_cases h4 : 400 ≤ call.status
    · simp [get_pollen_types, h4]
    · cases hb : call.body with
      | none => simp [get_pollen_types, h4, hb]
      | some b =>
        cases hi : b.items with
        | none => simp [get_pollen_types, h4, hb, hi]
        | some items =>
          by_cases hz : buildDict (items.map (fun i => (i.id, i.name))) = [] <;>
            simp [get_pollen_types, h4, hb, hi, hz]
  · rintro call h (hb | hb) <;>
      simp [get_pollen_types, hb, Nat.not_le.mpr h]
  · intro call items h hb hz
    simp [get_pollen_types, hb, Nat.not_le.mpr h, hz]
  · intro call items h hb hz
    simp [get_pollen_types, hb, Nat.not_le.mpr h, hz]
  · intro m calls hm
    induction calls with
    | nil => rfl
    | cons c rest ih =>
      simp [runPollenTypeCalls, get_pollen_types, hm, ih]

/-- C5 witness: a 200 response with zero items raises `noPollenTypes` and
leaves the cache empty; with a one-entry cached mapping, two further calls
are both answered from the cache without hitting the network. -/
theorem pollen_types_error_and_cache_policy_witness :
    ((get_pollen_types [] ⟨200, "", some ⟨some []⟩⟩).1 = []
      ∧ (get_pollen_types [] ⟨200, "", some ⟨some []⟩⟩).2.1
        = .error .noPollenTypes)
    ∧ runPollenTypeCalls [("1", "Birch")]
        [⟨500, "boom", none⟩, ⟨200, "", some ⟨some []⟩⟩]
      = [(.ok [("1", "Birch")], false), (.ok [("1", "Birch")], false)] :=
  ⟨pollen_types_error_and_cache_policy.2.2.1 ⟨200, "", some ⟨some []⟩⟩ []
      (by decide) rfl rfl,
   pollen_types_error_and_cache_policy.2.2.2.2 [("1", "Birch")]
      [⟨500, "boom", none⟩, ⟨200, "", some ⟨some []⟩⟩] (by decide)⟩

/-- C6: `get_regions` (on a fresh cache) returns an empty mapping without
raising on any non-200 status and on a 200 body that lacks the `items` key,
but raises on timeout, on connection failure, on a null-decoded body, and on
an item lacking its `id` or `name` key (KeyError / TypeError while
parsing). -/
theorem regions_empty_on_non200_raise_on_failures :
    (∀ (status : Nat) (body : Option RegionsBody), status ≠ 200 →
        (get_regions [] (.http status body)).2 = .ok [])
    ∧ (∀ b : RegionsBody, b.items = none →
        (get_regions [] (.http 200 (some b))).2 = .ok [])
    ∧ ((get_regions [] .timedOut).2 = .error .timeoutRegions)
    ∧ ((get_regions [] .connFailed).2 = .error .transportRegions)
    ∧ ((get_regions [] (.http 200 none)).2 = .error .parseRegions)
    ∧ (∀ (b : RegionsBody) (items : List RegionItem),
        b.items = some items → buildRegions items = none →
        (get_regions [] (.http 200 (some b))).2 = .error .parseRegions) := by
  refine ⟨?_, ?_, rfl, rfl, rfl, ?_⟩
  · intro status body hstatus
    simp [get_regions, hstatus]
  · intro b hb
    simp [get_regions, hb]
  · intro b items hb hfail
    simp [get_regions, hb, hfail]

/-- C6 witness: a 404 response and a 200 response without `items` yield the
empty mapping, and an item missing its `name` key raises the parse error. -/
theorem regions_empty_on_non200_raise_on_failures_witness :
    ((get_regions [] (.http 404 none)).2 = .ok [])
    ∧ ((get_regions [] (.http 200 (some ⟨none⟩))).2 = .ok [])
    ∧ ((get_regions [] (.http 200 (some ⟨some [⟨some "1", none⟩]⟩))).2
        = .error .parseRegions) :=
  ⟨regions_empty_on_non200_raise_on_failures.1 404 none (by decide),
   regions_empty_on_non200_raise_on_failures.2.1 ⟨none⟩ rfl,
   regions_empty_on_non200_raise_on_failures.2.2.2.2.2 ⟨some [⟨some "1", none⟩]⟩
      [⟨some "1", none⟩] rfl rfl⟩

/-- A concrete snapshot with a non-empty levels mapping, for witnesses. -/
def snapBirch : SnapshotData :=
  { forecast := { start_date := some "2025-04-01", end_date := some "2025-04-07"
                  text := "Birch pollen rising", pollen_levels := [("1", 3)] }
    level_definitions := [(3, "Moderate")]
    pollen_types := [("1", "Birch")] }

/-- A concrete snapshot whose levels mapping is empty, for witnesses. -/
def snapNoLevels : SnapshotData :=
  { forecast := { start_date := some "2025-11-01", end_date := some "2025-11-07"
                  text := "Season over", pollen_levels := [] }
    level_definitions := []
    pollen_types := [("1", "Birch")] }

/-- C1: when the coordinator holds a last successful snapshot, a cycle whose
forecast fetch fails returns exactly that snapshot, raises nothing to the
caller, and leaves the stored last-successful snapshot unchanged. -/
theorem coordinator_failure_serves_last_snapshot
    (st : CoordState) (inp : RefreshInput) (snap : SnapshotData)
    (e : ApiError) (hsnap : st.lastSuccessfulData = some snap)
    (hfail : inp.forecastResult = .error e) :
    (coordinatorUpdate st inp).2 = .ok snap
    ∧ (coordinatorUpdate st inp).1.lastSuccessfulData = some snap := by
  constructor <;> simp [coordinatorUpdate, hfail, hsnap]

/-- C1 witness: after a successful cycle stored `snapBirch`, a cycle whose
forecast fetch times out returns `snapBirch` and keeps it stored. -/
theorem coordinator_failure_serves_last_snapshot_witness :
    (coordinatorUpdate ⟨some snapBirch, [(3, "Moderate")], some [("1", "Birch")]⟩
        ⟨none, .error .transportRaised, .error .timeoutRaised⟩).2 = .ok snapBirch
    ∧ (coordinatorUpdate ⟨some snapBirch, [(3, "Moderate")], some [("1", "Birch")]⟩
        ⟨none, .error .transportRaised, .error .timeoutRaised⟩).1.lastSuccessfulData
      = some snapBirch :=
  coordinator_failure_serves_last_snapshot
    ⟨some snapBirch, [(3, "Moderate")], some [("1", "Birch")]⟩
    ⟨none, .error .transportRaised, .error .timeoutRaised⟩
    snapBirch .timeoutRaised rfl rfl

/-- C2: when the coordinator has never completed a successful refresh, a
cycle whose forecast fetch fails raises `UpdateFailed` to its caller instead
of returning data, and still holds no snapshot afterwards. -/
theorem coordinator_first_failure_raises
    (st : CoordState) (inp : RefreshInput) (e : ApiError)
    (hnone : st.lastSuccessfulData = none)
    (hfail : inp.forecastResult = .error e) :
    (coordinatorUpdate st inp).2 = .error (.updateFailed "API error")
    ∧ (coordinatorUpdate st inp).1.lastSuccessfulData = none := by
  constructor <;> simp [coordinatorUpdate, hfail, hnone]

/-- C2 witness: a fresh coordinator whose first forecast fetch reports no
items raises `UpdateFailed` and remains without a snapshot. -/
theorem coordinator_first_failure_raises_witness :
    (coordinatorUpdate ⟨none, [], none⟩
        ⟨none, .ok [("1", "Birch")], .error .noItems⟩).2
      = .error (.updateFailed "API error")
    ∧ (coordinatorUpdate ⟨none, [], none⟩
        ⟨none, .ok [("1", "Birch")], .error .noItems⟩).1.lastSuccessfulData
      = none :=
  coordinator_first_failure_raises ⟨none, [], none⟩
    ⟨none, .ok [("1", "Birch")], .error .noItems⟩ .noItems rfl rfl

/-- C7 counterexample: the forecast sensor's availability is a boolean, not
the spec's three-valued state — two coordinator states that the spec maps
to the distinct values `"no_data"` and `"active"` produce the identical
availability in the code, so no availability value separates them. -/
theorem forecast_availability_not_three_valued :
    forecastSensorAvailable ⟨false, some snapNoLevels, some snapNoLevels⟩
      = forecastSensorAvailable ⟨false, some snapBirch, some snapBirch⟩
    ∧ specForecastAvailability (some snapNoLevels) = "no_data"
    ∧ specForecastAvailability (some snapBirch) = "active"
    ∧ specForecastAvailability (some snapNoLevels)
        ≠ specForecastAvailability (some snapBirch) :=
  ⟨rfl, by decide, by decide, by decide⟩

/-- C7 amended: the forecast sensor's availability is boolean — true exactly
when the last update succeeded or a last successful snapshot exists — and it
depends only on those two facts, so a snapshot with empty levels is exposed
with the same availability as one with non-empty levels (there is no
separate no-data state). -/
theorem forecast_availability_is_boolean (cv : CoordView) :
    (forecastSensorAvailable cv = true ↔
      cv.lastUpdateSuccess = true ∨ cv.lastSuccessfulData.isSome = true)
    ∧ (∀ cv' : CoordView, cv'.lastUpdateSuccess = cv.lastUpdateSuccess →
        cv'.lastSuccessfulData.isSome = cv.lastSuccessfulData.isSome →
        forecastSensorAvailable cv' = forecastSensorAvailable cv) := by
  constructor
  · simp [forecastSensorAvailable]
  · intro cv' h1 h2
    simp [forecastSensorAvailable, h1, h2]

/-- C7 amended witness: a state holding only an empty-levels snapshot and one
holding a populated snapshot have the same (true) availability. -/
theorem forecast_availability_is_boolean_witness :
    forecastSensorAvailable ⟨false, some snapNoLevels, some snapNoLevels⟩
      = forecastSensorAvailable ⟨false, some snapBirch, some snapBirch⟩ :=
  (forecast_availability_is_boolean
      ⟨false, some snapBirch, some snapBirch⟩).2
    ⟨false, some snapNoLevels, some snapNoLevels⟩ rfl rfl

/-- Lexicographic less-or-equal on character lists. -/
def lexLeChars : List Char → List Char → Bool
  | [], _ => true
  | _ :: _, [] => false
  | a :: as, b :: bs => a < b || (a = b && lexLeChars as bs)

/-- Lexicographic less-or-equal on strings (character-wise). -/
def strLexLe (a b : String) : Bool :=
  lexLeChars a.data b.data

/-- A snapshot whose levels mapping was inserted in an order that is not
alphabetical by type name ("Grass" before "Birch"), for the C8 check. -/
def snapUnsortedNames : SnapshotData :=
  { forecast := { start_date := some "2025-04-01", end_date := some "2025-04-07"
                  text := "", pollen_levels := [("2", 1), ("1", 2)] }
    level_definitions := [(1, "Low"), (2, "Moderate")]
    pollen_types := [("1", "Birch"), ("2", "Grass")] }

/-- C8 counterexample: the forecast sensor's per-type entries follow the
levels dict's insertion order, not type-name order.  The levels mapping
`[("2", 1), ("1", 2)]` is really produced by the today-filter on a series
listing type "2" first, and the resulting entry names are
`["Grass", "Birch"]` — not sorted ascending. -/
theorem forecast_entries_not_sorted_by_name :
    processLevelSeries "2025-04-01"
      [⟨some "2025-04-01T00:00", some "2", some 1⟩,
       ⟨some "2025-04-01T00:00", some "1", some 2⟩]
      = snapUnsortedNames.forecast.pollen_levels
    ∧ (forecastTypeEntries snapUnsortedNames).map Prod.fst = ["Grass", "Birch"]
    ∧ ¬ List.Sorted (fun a b : String × Int × String => strLexLe a.1 b.1 = true)
        (forecastTypeEntries snapUnsortedNames) := by
  refine ⟨by decide, by decide, ?_⟩
  intro hsorted
  rw [show forecastTypeEntries snapUnsortedNames
      = [("Grass", (1 : Int), "Low"), ("Birch", 2, "Moderate")] from by decide]
    at hsorted
  have h := List.rel_of_sorted_cons hsorted ("Birch", 2, "Moderate") (by simp)
  revert h
  decide

/-- C8 amended: for every snapshot, the forecast view's per-type entries
appear in the iteration (insertion) order of the snapshot's levels mapping —
the i-th entry carries the i-th binding's level and its type name resolved
through the catalog — with no reordering by type name. -/
theorem forecast_entries_follow_levels_order (s : SnapshotData) :
    (forecastTypeEntries s).map Prod.fst
      = s.forecast.pollen_levels.map
          (fun p => (dictGet s.pollen_types p.1).getD p.1)
    ∧ (forecastTypeEntries s).map (fun e => e.2.1)
      = s.forecast.pollen_levels.map Prod.snd := by
  constructor <;> simp [forecastTypeEntries]

/-- C9: the measurement sensor's value is the level stored in the snapshot's
levels mapping for its pollen-type id when the id is present, and `none` —
not zero, and without any missing-key failure — when the id is absent. -/
theorem measurement_value_is_level_lookup (s : SnapshotData) (pid : String) :
    (∀ v : Int, dictGet s.forecast.pollen_levels pid = some v →
        pollenSensorNativeValue (some s) pid = some v)
    ∧ (dictGet s.forecast.pollen_levels pid = none →
        pollenSensorNativeValue (some s) pid = none
        ∧ pollenSensorNativeValue (some s) pid ≠ some 0) := by
  refine ⟨?_, ?_⟩
  · intro v hv
    simp [pollenSensorNativeValue, hv]
  · intro hv
    simp [pollenSensorNativeValue, hv]

/-- C9 witness: on `snapBirch`, id "1" reads its stored level 3 and the
unconfigured id "2" reads `none` rather than zero. -/
theorem measurement_value_is_level_lookup_witness :
    (pollenSensorNativeValue (some snapBirch) "1" = some 3)
    ∧ (pollenSensorNativeValue (some snapBirch) "2" = none
        ∧ pollenSensorNativeValue (some snapBirch) "2" ≠ some 0) :=
  ⟨(measurement_value_is_level_lookup snapBirch "1").1 3 (by decide),
   (measurement_value_is_level_lookup snapBirch "2").2 (by decide)⟩

end PollenPulsen

